import Mathlib

/-!
Verification of the NASA AgriSat Intelligence Platform core pipeline
(ingestion, scoring, alerting) against its specification.

Shallow embedding conventions:
* Functions found under `src/frontend/src/lib` are translated directly
  (health-status bucketing, validation constants, retry/cache constants,
  the Haversine distance).
* The backend scoring/cache/alert/scheduler engine is not present under
  `src/` (only its README and its HTTP callers are); those components are
  modelled from the spec, each such definition carrying a doc comment that
  starts with `Modelled from the spec:`.
* JS numbers are modelled as exact rationals (or reals for trigonometry);
  timestamps are naturals (milliseconds since epoch).
-/

namespace AgriSat

/-! ## Source embeddings: src/frontend/src/lib/utils.ts and constants.ts -/

/-- Health status values, from the return type of healthScore.getStatus in
src/frontend/src/lib/utils.ts and the HEALTH_STATUS table in constants.ts. -/
inductive HealthStatus : Type
  | excellent
  | good
  | fair
  | poor
  | critical
deriving DecidableEq, Repr

/-- Embedding of healthScore.getStatus (src/frontend/src/lib/utils.ts,
lines 90-96): a cascade of lower-bound tests on the numeric score. -/
def getStatus (score : ℚ) : HealthStatus :=
  if score ≥ 90 then .excellent
  else if score ≥ 75 then .good
  else if score ≥ 60 then .fair
  else if score ≥ 40 then .poor
  else .critical

/-- Embedding of the HEALTH_STATUS table of src/frontend/src/lib/constants.ts
(lines 40-46): each status value with its inclusive score range. -/
def HEALTH_STATUS : List (HealthStatus × ℚ × ℚ) :=
  [(.excellent, 90, 100), (.good, 75, 89), (.fair, 60, 74),
   (.poor, 40, 59), (.critical, 0, 39)]

/-- VALIDATION.HEALTH_SCORE.MIN from src/frontend/src/lib/constants.ts. -/
def VALIDATION_HEALTH_SCORE_MIN : ℚ := 0

/-- VALIDATION.HEALTH_SCORE.MAX from src/frontend/src/lib/constants.ts. -/
def VALIDATION_HEALTH_SCORE_MAX : ℚ := 100

/-- API_CONFIG.RETRY_ATTEMPTS from src/frontend/src/lib/constants.ts. -/
def API_CONFIG_RETRY_ATTEMPTS : ℕ := 3

/-- API_CONFIG.RETRY_DELAY (milliseconds) from src/frontend/src/lib/constants.ts. -/
def API_CONFIG_RETRY_DELAY : ℕ := 1000

/-- Crop types, from the CROP_TYPES table of src/frontend/src/lib/constants.ts. -/
inductive CropType : Type
  | wheat
  | corn
  | rice
  | soybean
  | cotton
  | barley
  | other
deriving DecidableEq, Repr

/-- Alert severities, from the ALERT_SEVERITY table of
src/frontend/src/lib/constants.ts and the Alert interface of
src/unnamed/part_002 (lines 52-62). -/
inductive Severity : Type
  | low
  | medium
  | high
  | critical
deriving DecidableEq, Repr

/-! ## Haversine distance (src/frontend/src/lib/utils.ts, coordinates.distance),
over exact real arithmetic -/

/-- Two-argument arctangent with the semantics of the JS Math.atan2 used by
coordinates.distance (principal value in (-pi, pi]). -/
noncomputable def atan2 (y x : ℝ) : ℝ :=
  if 0 < x then Real.arctan (y / x)
  else if x < 0 then
    (if 0 ≤ y then Real.arctan (y / x) + Real.pi else Real.arctan (y / x) - Real.pi)
  else
    (if 0 < y then Real.pi / 2 else if y < 0 then -(Real.pi / 2) else 0)

/-- The intermediate value `a` of coordinates.distance
(src/frontend/src/lib/utils.ts, lines 142-145): with dLat = (lat2 - lat1) *
pi / 180 and dLon = (lon2 - lon1) * pi / 180, the value sin(dLat/2) *
sin(dLat/2) + cos(lat1 * pi / 180) * cos(lat2 * pi / 180) * sin(dLon/2) *
sin(dLon/2). -/
noncomputable def haversineA (lat1 lon1 lat2 lon2 : ℝ) : ℝ :=
  Real.sin ((lat2 - lat1) * Real.pi / 180 / 2) *
    Real.sin ((lat2 - lat1) * Real.pi / 180 / 2) +
  Real.cos (lat1 * Real.pi / 180) * Real.cos (lat2 * Real.pi / 180) *
    (Real.sin ((lon2 - lon1) * Real.pi / 180 / 2) *
      Real.sin ((lon2 - lon1) * Real.pi / 180 / 2))

/-- Embedding of coordinates.distance (src/frontend/src/lib/utils.ts, lines
137-148): Haversine distance in kilometers, R = 6371, c = 2 * atan2(sqrt a,
sqrt(1 - a)), result R * c, with JS floating point read as exact real
arithmetic. -/
noncomputable def distance (lat1 lon1 lat2 lon2 : ℝ) : ℝ :=
  6371 * (2 * atan2 (Real.sqrt (haversineA lat1 lon1 lat2 lon2))
    (Real.sqrt (1 - haversineA lat1 lon1 lat2 lon2)))

/-! ## Observation cache (backend not under src/; modelled from the spec) -/

/-- Feed classes from the spec data model: feed_type is weather,
vegetation_index or fire. -/
inductive FeedType : Type
  | weather
  | vegetation_index
  | fire
deriving DecidableEq, Repr

/-- Modelled from the spec: the per-feed cache validity window in
milliseconds (weather: 24 h; vegetation index: 7 days; fire: 3 h). The
backend observation cache is not under src/. -/
def validityWindowMs : FeedType → ℕ
  | .weather => 86400000
  | .vegetation_index => 604800000
  | .fire => 10800000

/-- Cache key: (field identifier, feed type, observation date). -/
structure CacheKey where
  field_id : ℕ
  feed_type : FeedType
  date : ℕ
deriving DecidableEq, Repr

/-- A cached observation: payload plus the fetch timestamp (ms since epoch). -/
structure CacheEntry where
  payload : ℕ
  fetched_at : ℕ
deriving DecidableEq, Repr

/-- Cache state: a partial map from keys to cached observations. -/
def CacheState : Type := CacheKey → Option CacheEntry

/-- Outcome of invoking the external fetch function once. -/
inductive FetchOutcome : Type
  | success (payload : ℕ)
  | transient
  | permanent
deriving DecidableEq, Repr

/-- Typed failure propagated by the cache, per the spec error taxonomy. -/
inductive FetchError : Type
  | transient
  | permanent
deriving DecidableEq, Repr

/-- Result of get_or_fetch: the returned value or error, the updated cache
state, and how many times the external fetch function was invoked. -/
structure GetOrFetchOut where
  result : Except FetchError ℕ
  state : CacheState
  fetchCalls : ℕ

/-- Modelled from the spec: get_or_fetch(field_id, feed_type, date, fetch_fn).
If a cached observation exists for the exact key and its fetched_at is within
the feed's validity window, return it without calling fetch_fn; otherwise
invoke fetch_fn and on success overwrite the cache entry; on transient failure
return the stale cached value if one exists, else propagate; on permanent
failure propagate without caching. The backend cache is not under src/. -/
def get_or_fetch (st : CacheState) (k : CacheKey) (now : ℕ)
    (fetch_fn : Unit → FetchOutcome) : GetOrFetchOut :=
  match st k with
  | some e =>
    if now ≤ e.fetched_at + validityWindowMs k.feed_type then
      ⟨.ok e.payload, st, 0⟩
    else
      match fetch_fn () with
      | .success p => ⟨.ok p, fun k2 => if k2 = k then some ⟨p, now⟩ else st k2, 1⟩
      | .transient => ⟨.ok e.payload, st, 1⟩
      | .permanent => ⟨.error .permanent, st, 1⟩
  | none =>
    match fetch_fn () with
    | .success p => ⟨.ok p, fun k2 => if k2 = k then some ⟨p, now⟩ else st k2, 1⟩
    | .transient => ⟨.error .transient, st, 1⟩
    | .permanent => ⟨.error .permanent, st, 1⟩

/-! ## Scoring engine (backend not under src/; modelled from the spec) -/

/-- A vegetation-index observation: record id, NDVI value in [-1,1], quality
flag. -/
structure VegObs where
  id : ℕ
  ndvi : ℚ
  quality_ok : Bool
deriving DecidableEq, Repr

/-- A weather observation: record id, min/max temperature (Celsius),
precipitation (mm). -/
structure WeatherObs where
  id : ℕ
  temp_min : ℚ
  temp_max : ℚ
  precipitation : ℚ
deriving DecidableEq, Repr

/-- Per-crop weather tolerance band. -/
structure ToleranceBand where
  temp_lo : ℚ
  temp_hi : ℚ
  precip_lo : ℚ
  precip_hi : ℚ
deriving DecidableEq, Repr

/-- Modelled from the spec: per-crop weather tolerance bands looked up by
crop_type (the backend table is not under src/; representative bands, one per
CROP_TYPES entry). -/
def toleranceBand : CropType → ToleranceBand
  | .wheat => ⟨3, 32, 1, 50⟩
  | .corn => ⟨10, 35, 2, 60⟩
  | .rice => ⟨15, 38, 5, 80⟩
  | .soybean => ⟨10, 34, 2, 60⟩
  | .cotton => ⟨15, 37, 1, 50⟩
  | .barley => ⟨2, 30, 1, 45⟩
  | .other => ⟨0, 40, 0, 100⟩

/-- Vegetation observations that pass the quality flag. -/
def validVeg (veg : List VegObs) : List VegObs :=
  veg.filter (fun v => v.quality_ok)

/-- Modelled from the spec: NDVI normalized from its [-1,1] domain into
[0,100], clipped at the low end for water/no-vegetation reads. -/
def ndviTerm (n : ℚ) : ℚ := max 0 ((n + 1) * 50)

/-- Mean NDVI of a list of vegetation observations. -/
def meanNdvi (l : List VegObs) : ℚ :=
  (l.map (fun v => v.ndvi)).sum / (l.length : ℚ)

/-- Modelled from the spec: weather-stress deduction for one observation,
a fixed deduction per band violation (temperature, precipitation). -/
def weatherPenaltyObs (b : ToleranceBand) (w : WeatherObs) : ℚ :=
  (if w.temp_max > b.temp_hi ∨ w.temp_min < b.temp_lo then 10 else 0) +
  (if w.precipitation < b.precip_lo ∨ w.precipitation > b.precip_hi then 10 else 0)

/-- Total weather-stress penalty for a crop over a list of observations. -/
def weatherPenalty (c : CropType) (ws : List WeatherObs) : ℚ :=
  (ws.map (weatherPenaltyObs (toleranceBand c))).sum

/-- A computed health score record (HealthScore of the spec data model). -/
structure HealthScoreRec where
  score : ℚ
  status : HealthStatus
  contributing_observation_ids : List ℕ
deriving DecidableEq, Repr

/-- Result of compute_health: either a score record or the distinct
insufficient-data outcome (no HealthScore record is produced). -/
inductive HealthResult : Type
  | insufficientData
  | ok (rec : HealthScoreRec)
deriving DecidableEq, Repr

/-- Modelled from the spec: compute_health(vegetation_observations,
weather_observations, crop_type). The inputs are the observations inside the
current scoring window. With zero valid vegetation observations the engine
returns insufficient_data and produces no record; otherwise the score is the
NDVI term minus the weather-stress penalty, clamped into [0,100], and the
status comes from the fixed bucket function getStatus. The backend scoring
engine is not under src/. -/
def compute_health (veg : List VegObs) (ws : List WeatherObs) (c : CropType) :
    HealthResult :=
  let vl := validVeg veg
  if vl.isEmpty then .insufficientData
  else
    let score := min 100 (max 0 (ndviTerm (meanNdvi vl) - weatherPenalty c ws))
    .ok ⟨score, getStatus score, vl.map (fun v => v.id) ++ ws.map (fun w => w.id)⟩

/-! ## Fire risk (backend not under src/; modelled from the spec) -/

/-- Discrete fire-risk levels from the spec data model. -/
inductive RiskLevel : Type
  | none
  | low
  | moderate
  | high
  | extreme
deriving DecidableEq, Repr

/-- Modelled from the spec: compute_fire_risk, taking the distances in meters
from each relevant hotspot (already inside the 5 km buffer) to the field
boundary, and the number of consecutive days with a detection within 500 m.
Ladder: 0 hotspots gives none; 1-2 all beyond 2 km gives low; any within 2 km
or 3+ gives moderate; 1+ within 500 m gives high; 2+ consecutive days within
500 m gives extreme. The backend risk engine is not under src/. -/
def compute_fire_risk (dists_m : List ℕ) (consecutiveDaysWithin500m : ℕ) :
    RiskLevel :=
  if dists_m.isEmpty then .none
  else if dists_m.any (fun dd => decide (dd ≤ 500)) then
    (if 2 ≤ consecutiveDaysWithin500m then .extreme else .high)
  else if dists_m.any (fun dd => decide (dd ≤ 2000)) || decide (3 ≤ dists_m.length) then
    .moderate
  else .low

/-! ## Alert engine (backend not under src/; modelled from the spec) -/

/-- Alert kinds from the spec data model: weather, fire, crop_health. -/
inductive AlertKind : Type
  | weather
  | fire
  | crop_health
deriving DecidableEq, Repr

/-- Alert record: id, field_id, severity, created/resolved timestamps follow
the Alert interface of src/unnamed/part_002 (lines 52-62, where is_resolved
mirrors resolved_at); kind, dedup_key and last_seen come from the spec data
model, which the backend (not under src/) implements. -/
structure AlertRec where
  id : ℕ
  field_id : ℕ
  kind : AlertKind
  severity : Severity
  opened_at : ℕ
  last_seen : ℕ
  resolved_at : Option ℕ
  dedup_key : String
deriving DecidableEq, Repr

/-- An alert is open while resolved_at is unset. -/
def AlertRec.isOpen (a : AlertRec) : Bool := a.resolved_at.isNone

/-- Alert store state: all records plus a fresh-id counter. -/
structure AlertState where
  alerts : List AlertRec
  nextId : ℕ

/-- Does this record match (field_id, kind, dedup_key) and stand open? -/
def matchesOpen (fid : ℕ) (k : AlertKind) (d : String) (a : AlertRec) : Bool :=
  a.isOpen && a.field_id == fid && a.kind == k && a.dedup_key == d

/-- Number of simultaneously open alerts for one (field_id, kind, dedup_key). -/
def openCount (s : AlertState) (fid : ℕ) (k : AlertKind) (d : String) : ℕ :=
  s.alerts.countP (matchesOpen fid k d)

/-- Modelled from the spec: the atomic create-or-reaffirm upsert of the alert
engine. If an open alert already exists for (field_id, kind, dedup_key), no
new alert is created and only its last-seen detail is updated; otherwise a
fresh record with a fresh id is opened. The backend alert engine is not under
src/. -/
def createOrReaffirm (s : AlertState) (fid : ℕ) (k : AlertKind) (sev : Severity)
    (d : String) (now : ℕ) : AlertState :=
  if s.alerts.any (matchesOpen fid k d) then
    ⟨s.alerts.map (fun a =>
      if matchesOpen fid k d a then { a with last_seen := now } else a),
     s.nextId⟩
  else
    ⟨⟨s.nextId, fid, k, sev, now, now, none, d⟩ :: s.alerts, s.nextId + 1⟩

/-- Modelled from the spec: the explicit resolve action (alertAPI.resolveAlert
in src/unnamed/part_002 calls it over HTTP): sets resolved_at on the open
alert with the given id; resolved records are never changed. -/
def resolveAlert (s : AlertState) (aid : ℕ) (now : ℕ) : AlertState :=
  ⟨s.alerts.map (fun a =>
    if a.id == aid && a.isOpen then { a with resolved_at := some now } else a),
   s.nextId⟩

/-- One atomic transition of the alert store. Concurrent batch runs interleave
these transitions; the spec requires the create-or-reaffirm step to run under
a key-scoped mutual-exclusion guarantee, so each transition is atomic. -/
inductive AlertStep : AlertState → AlertState → Prop
  | trigger (s : AlertState) (fid : ℕ) (k : AlertKind) (sev : Severity)
      (d : String) (now : ℕ) :
      AlertStep s (createOrReaffirm s fid k sev d now)
  | resolve (s : AlertState) (aid : ℕ) (now : ℕ) :
      AlertStep s (resolveAlert s aid now)

/-- The empty alert store. -/
def emptyAlertState : AlertState := ⟨[], 0⟩

/-- States of the alert store reachable from the empty store by any
interleaving of atomic transitions. -/
inductive AlertReachable : AlertState → Prop
  | init : AlertReachable emptyAlertState
  | step {s s2 : AlertState} :
      AlertReachable s → AlertStep s s2 → AlertReachable s2

/-- The alert store invariant: at most one open alert per (field_id, kind,
dedup_key), and every stored id is below the fresh-id counter. -/
def AlertInv (s : AlertState) : Prop :=
  (∀ (fid : ℕ) (k : AlertKind) (d : String), openCount s fid k d ≤ 1) ∧
  ∀ a ∈ s.alerts, a.id < s.nextId

/-! ## Scheduler retry (backend not under src/; modelled from the spec) -/

/-- Outcome of a single attempt of a field task. -/
inductive AttemptOutcome : Type
  | success
  | transient
  | permanent
deriving DecidableEq, Repr

/-- Classification recorded for a field after running with retries. -/
inductive RunStatus : Type
  | succeeded
  | failedTransient
  | failedPermanent
deriving DecidableEq, Repr

/-- Result of running one field task: final status, attempts made, and the
backoff delays (ms) waited between attempts. -/
structure RunOut where
  status : RunStatus
  attempts : ℕ
  delays : List ℕ
deriving DecidableEq, Repr

/-- Modelled from the spec: run one field task starting at attempt index i
with at most `remaining` attempts; a transient failure waits base * 2 ^ i ms
(exponential backoff) and retries, a permanent failure is recorded
immediately without retry. The backend runner is not under src/. -/
def runAttempts (outcomes : ℕ → AttemptOutcome) (base : ℕ) :
    ℕ → ℕ → RunOut
  | _, 0 => ⟨.failedTransient, 0, []⟩
  | i, n + 1 =>
    match outcomes i with
    | .success => ⟨.succeeded, 1, []⟩
    | .permanent => ⟨.failedPermanent, 1, []⟩
    | .transient =>
      if n = 0 then ⟨.failedTransient, 1, []⟩
      else
        let r := runAttempts outcomes base (i + 1) n
        ⟨r.status, r.attempts + 1, base * 2 ^ i :: r.delays⟩

/-- Modelled from the spec: one field task run under the default retry policy,
API_CONFIG.RETRY_ATTEMPTS attempts with API_CONFIG.RETRY_DELAY base backoff. -/
def run_field_task (outcomes : ℕ → AttemptOutcome) : RunOut :=
  runAttempts outcomes API_CONFIG_RETRY_DELAY 0 API_CONFIG_RETRY_ATTEMPTS

/-! ## Theorems for the claims -/

/-- Helper: healthScore.getStatus follows the fixed bucket table. -/
theorem getStatus_buckets (s : ℚ) :
    (90 ≤ s → getStatus s = .excellent) ∧
    (75 ≤ s ∧ s < 90 → getStatus s = .good) ∧
    (60 ≤ s ∧ s < 75 → getStatus s = .fair) ∧
    (40 ≤ s ∧ s < 60 → getStatus s = .poor) ∧
    (s < 40 → getStatus s = .critical) := by
  unfold getStatus
  refine ⟨fun h => ?_, fun h => ?_, fun h => ?_, fun h => ?_, fun h => ?_⟩
  · simp [h]
  · rw [if_neg (by linarith [h.2]), if_pos (by linarith [h.1])]
  · rw [if_neg (by linarith [h.2]), if_neg (by linarith [h.2]),
      if_pos (by linarith [h.1])]
  · rw [if_neg (by linarith [h.2]), if_neg (by linarith [h.2]),
      if_neg (by linarith [h.2]), if_pos (by linarith [h.1])]
  · rw [if_neg (by linarith), if_neg (by linarith), if_neg (by linarith),
      if_neg (by linarith)]

/-- C1. Every numeric health score is bucketed by the fixed table (at least 90
excellent, [75,90) good, [60,75) fair, [40,60) poor, below 40 critical), and
for every input with at least one valid vegetation-index observation,
compute_health returns a score in [0,100] whose status is consistent with
that table. -/
theorem health_bucket_table_and_compute_health_range :
    (∀ s : ℚ,
      (90 ≤ s → getStatus s = .excellent) ∧
      (75 ≤ s ∧ s < 90 → getStatus s = .good) ∧
      (60 ≤ s ∧ s < 75 → getStatus s = .fair) ∧
      (40 ≤ s ∧ s < 60 → getStatus s = .poor) ∧
      (s < 40 → getStatus s = .critical)) ∧
    ∀ (veg : List VegObs) (ws : List WeatherObs) (c : CropType),
      validVeg veg ≠ [] →
      ∃ r, compute_health veg ws c = .ok r ∧
        0 ≤ r.score ∧ r.score ≤ 100 ∧ r.status = getStatus r.score := by
  refine ⟨getStatus_buckets, fun veg ws c h => ?_⟩
  unfold compute_health
  rw [if_neg (by simpa [List.isEmpty_iff] using h)]
  exact ⟨_, rfl, le_min (by norm_num) (le_max_left 0 _), min_le_left _ _, rfl⟩

/-- Witness for C1 at concrete inputs: score 91 is excellent, and the spec
scenario of a single valid NDVI 0.82 observation with no weather data yields
a well-formed score. -/
theorem health_bucket_table_and_compute_health_range_witness :
    getStatus 91 = .excellent ∧
    (validVeg [⟨1, 41/50, true⟩] ≠ [] ∧
      ∃ r, compute_health [⟨1, 41/50, true⟩] [] .wheat = .ok r ∧
        0 ≤ r.score ∧ r.score ≤ 100 ∧ r.status = getStatus r.score) :=
  ⟨(health_bucket_table_and_compute_health_range.1 91).1 (by norm_num),
   by decide,
   health_bucket_table_and_compute_health_range.2 _ _ _ (by decide)⟩

/-- C9. healthScore.getStatus is total on all numeric scores and never rejects
out-of-range ones: every score below the validation minimum 0 maps to
critical and every score above the validation maximum 100 maps to excellent. -/
theorem getStatus_total_out_of_range (s : ℚ) :
    (s < VALIDATION_HEALTH_SCORE_MIN → getStatus s = .critical) ∧
    (VALIDATION_HEALTH_SCORE_MAX < s → getStatus s = .excellent) := by
  constructor
  · intro h
    exact (getStatus_buckets s).2.2.2.2
      (by unfold VALIDATION_HEALTH_SCORE_MIN at h; linarith)
  · intro h
    exact (getStatus_buckets s).1
      (by unfold VALIDATION_HEALTH_SCORE_MAX at h; linarith)

/-- Witness for C9 at concrete out-of-range scores -1 and 101. -/
theorem getStatus_total_out_of_range_witness :
    getStatus (-1) = .critical ∧ getStatus 101 = .excellent :=
  ⟨(getStatus_total_out_of_range (-1)).1 (by decide),
   (getStatus_total_out_of_range 101).2 (by decide)⟩

/-- C3. The validity windows are 24 hours for weather, 7 days for vegetation
index and 3 hours for fire, and whenever a cached observation exists for the
exact key with fetched_at within the feed's validity window, get_or_fetch
returns that cached observation, leaves the cache unchanged and never invokes
fetch_fn. -/
theorem get_or_fetch_fresh_cache_hit :
    (validityWindowMs .weather = 24 * 60 * 60 * 1000 ∧
     validityWindowMs .vegetation_index = 7 * 24 * 60 * 60 * 1000 ∧
     validityWindowMs .fire = 3 * 60 * 60 * 1000) ∧
    ∀ (st : CacheState) (k : CacheKey) (now : ℕ) (fetch_fn : Unit → FetchOutcome)
      (e : CacheEntry), st k = some e →
      now ≤ e.fetched_at + validityWindowMs k.feed_type →
      (get_or_fetch st k now fetch_fn).result = .ok e.payload ∧
      (get_or_fetch st k now fetch_fn).fetchCalls = 0 ∧
      (get_or_fetch st k now fetch_fn).state = st := by
  refine ⟨⟨rfl, rfl, rfl⟩, fun st k now fetch_fn e he hw => ?_⟩
  have h1 : get_or_fetch st k now fetch_fn = ⟨.ok e.payload, st, 0⟩ := by
    unfold get_or_fetch
    rw [he]
    dsimp only
    rw [if_pos hw]
  rw [h1]
  exact ⟨rfl, rfl, rfl⟩

/-- Witness for C3: a store caching payload 42 at time 100 under a weather key
serves the hit at time 1000 with zero fetch calls. -/
theorem get_or_fetch_fresh_cache_hit_witness :
    ((fun k2 => if k2 = CacheKey.mk 1 .weather 0 then some (CacheEntry.mk 42 100)
        else none) (CacheKey.mk 1 .weather 0) = some (CacheEntry.mk 42 100) ∧
     1000 ≤ 100 + validityWindowMs (CacheKey.mk 1 .weather 0).feed_type) ∧
    (get_or_fetch
      (fun k2 => if k2 = CacheKey.mk 1 .weather 0 then some (CacheEntry.mk 42 100)
        else none)
      (CacheKey.mk 1 .weather 0) 1000 (fun _ => .transient)).result = .ok 42 ∧
    (get_or_fetch
      (fun k2 => if k2 = CacheKey.mk 1 .weather 0 then some (CacheEntry.mk 42 100)
        else none)
      (CacheKey.mk 1 .weather 0) 1000 (fun _ => .transient)).fetchCalls = 0 :=
  ⟨⟨by decide, by decide⟩,
   ((get_or_fetch_fresh_cache_hit.2
      (fun k2 => if k2 = CacheKey.mk 1 .weather 0 then some (CacheEntry.mk 42 100)
        else none)
      (CacheKey.mk 1 .weather 0) 1000 (fun _ => .transient) (CacheEntry.mk 42 100)
      (by decide) (by decide)).1),
   ((get_or_fetch_fresh_cache_hit.2
      (fun k2 => if k2 = CacheKey.mk 1 .weather 0 then some (CacheEntry.mk 42 100)
        else none)
      (CacheKey.mk 1 .weather 0) 1000 (fun _ => .transient) (CacheEntry.mk 42 100)
      (by decide) (by decide)).2.1)⟩

/-- C4. Cache idempotence: starting with no cached observation for a key,
calling get_or_fetch twice for that key, with the first fetch succeeding and
the second call inside the validity window of the first, makes exactly one
invocation of the external fetch function across both calls (and the second
call serves the cached payload). -/
theorem get_or_fetch_idempotent (st : CacheState) (k : CacheKey) (t1 t2 : ℕ)
    (f1 f2 : Unit → FetchOutcome) (p : ℕ)
    (hnone : st k = none) (hf1 : f1 () = .success p)
    (hw : t2 ≤ t1 + validityWindowMs k.feed_type) :
    (get_or_fetch st k t1 f1).fetchCalls +
      (get_or_fetch (get_or_fetch st k t1 f1).state k t2 f2).fetchCalls = 1 ∧
    (get_or_fetch (get_or_fetch st k t1 f1).state k t2 f2).result = .ok p := by
  have h1 : get_or_fetch st k t1 f1 =
      ⟨.ok p, fun k2 => if k2 = k then some ⟨p, t1⟩ else st k2, 1⟩ := by
    unfold get_or_fetch
    rw [hnone, hf1]
  have h2 : get_or_fetch (fun k2 => if k2 = k then some ⟨p, t1⟩ else st k2) k t2 f2 =
      ⟨.ok p, fun k2 => if k2 = k then some ⟨p, t1⟩ else st k2, 0⟩ := by
    unfold get_or_fetch
    rw [show (fun k2 => if k2 = k then some (CacheEntry.mk p t1) else st k2) k =
      some ⟨p, t1⟩ from by simp]
    dsimp only
    rw [if_pos hw]
  rw [h1]
  dsimp only
  rw [h2]
  exact ⟨rfl, rfl⟩

/-- Witness for C4: an empty cache, a first fetch returning payload 5 at time
0, and a second call at time 100 for the same fire key. -/
theorem get_or_fetch_idempotent_witness :
    ((fun _ : CacheKey => (none : Option CacheEntry)) (CacheKey.mk 1 .fire 2) = none ∧
     (fun _ : Unit => FetchOutcome.success 5) () = .success 5 ∧
     100 ≤ 0 + validityWindowMs (CacheKey.mk 1 .fire 2).feed_type) ∧
    (get_or_fetch (fun _ => none) (CacheKey.mk 1 .fire 2) 0
        (fun _ => .success 5)).fetchCalls +
      (get_or_fetch
        (get_or_fetch (fun _ => none) (CacheKey.mk 1 .fire 2) 0
          (fun _ => .success 5)).state
        (CacheKey.mk 1 .fire 2) 100 (fun _ => .success 6)).fetchCalls = 1 :=
  ⟨⟨rfl, rfl, by decide⟩,
   (get_or_fetch_idempotent (fun _ => none) (CacheKey.mk 1 .fire 2) 0 100
     (fun _ => .success 5) (fun _ => .success 6) 5 rfl rfl (by decide)).1⟩

/-- Helper: a run never makes more attempts than its attempt budget. -/
theorem runAttempts_attempts_le (outcomes : ℕ → AttemptOutcome) (base : ℕ) :
    ∀ (n i : ℕ), (runAttempts outcomes base i n).attempts ≤ n := by
  intro n
  induction n with
  | zero => intro i; simp [runAttempts]
  | succ m ih =>
    intro i
    unfold runAttempts
    cases outcomes i with
    | success => simp
    | permanent => simp
    | transient =>
      by_cases hm : m = 0
      · simp [hm]
      · rw [if_neg hm]
        have := ih (i + 1)
        simp only
        omega

/-- C6. A field task whose failures are all transient is retried up to the
fixed bound API_CONFIG.RETRY_ATTEMPTS = 3 with exponentially growing backoff
delays before being recorded as failed; a permanent failure on the first
attempt is recorded immediately with zero retries and no backoff; and no run
ever exceeds the attempt bound. -/
theorem run_field_task_retry_policy :
    (∀ outcomes : ℕ → AttemptOutcome, (∀ i, outcomes i = .transient) →
      run_field_task outcomes =
        ⟨.failedTransient, API_CONFIG_RETRY_ATTEMPTS,
         [API_CONFIG_RETRY_DELAY, 2 * API_CONFIG_RETRY_DELAY]⟩) ∧
    (∀ outcomes : ℕ → AttemptOutcome, outcomes 0 = .permanent →
      run_field_task outcomes = ⟨.failedPermanent, 1, []⟩) ∧
    (∀ outcomes : ℕ → AttemptOutcome,
      (run_field_task outcomes).attempts ≤ API_CONFIG_RETRY_ATTEMPTS) := by
  refine ⟨fun outcomes h => ?_, fun outcomes h => ?_, fun outcomes => ?_⟩
  · show runAttempts outcomes 1000 0 3 = _
    have h3 : runAttempts outcomes 1000 2 1 = ⟨.failedTransient, 1, []⟩ := by
      unfold runAttempts
      rw [h 2]
      norm_num
    have h2 : runAttempts outcomes 1000 1 2 = ⟨.failedTransient, 2, [2000]⟩ := by
      unfold runAttempts
      rw [h 1]
      dsimp only
      rw [show (1 : ℕ) + 1 = 2 from rfl, h3]
      norm_num
    unfold runAttempts
    rw [h 0]
    dsimp only
    rw [show (0 : ℕ) + 1 = 1 from rfl, h2]
    norm_num [API_CONFIG_RETRY_ATTEMPTS, API_CONFIG_RETRY_DELAY]
  · show runAttempts outcomes 1000 0 3 = _
    unfold runAttempts
    rw [h]
  · exact runAttempts_attempts_le outcomes _ _ _

/-- Witness for C6: an always-transient task makes exactly the 3 attempts with
delays 1000 ms then 2000 ms; an immediately-permanent task makes 1 attempt. -/
theorem run_field_task_retry_policy_witness :
    run_field_task (fun _ => .transient) =
      ⟨.failedTransient, API_CONFIG_RETRY_ATTEMPTS,
       [API_CONFIG_RETRY_DELAY, 2 * API_CONFIG_RETRY_DELAY]⟩ ∧
    run_field_task (fun _ => .permanent) = ⟨.failedPermanent, 1, []⟩ :=
  ⟨run_field_task_retry_policy.1 (fun _ => .transient) (fun _ => rfl),
   run_field_task_retry_policy.2.1 (fun _ => .permanent) rfl⟩

/-- C7. With zero valid vegetation-index observations in the scoring window,
compute_health returns the distinct insufficient-data result — which carries
no HealthScore record — for every weather input and crop type, including
weather observations within tolerance. -/
theorem compute_health_insufficient_data (veg : List VegObs)
    (ws : List WeatherObs) (c : CropType) (h : validVeg veg = []) :
    compute_health veg ws c = .insufficientData := by
  unfold compute_health
  rw [h]
  rfl

/-- Witness for C7: no vegetation observations but one weather observation
inside the wheat tolerance band still yields insufficient data. -/
theorem compute_health_insufficient_data_witness :
    validVeg [] = [] ∧
    compute_health [] [⟨1, 10, 20, 5⟩] .wheat = .insufficientData :=
  ⟨rfl, compute_health_insufficient_data [] [⟨1, 10, 20, 5⟩] .wheat rfl⟩

/-- C8. compute_fire_risk follows the fixed ladder on the relevant hotspot
count and the minimum distance to the boundary: no hotspots give none; one or
two hotspots all beyond 2 km give low; any hotspot within 2 km, or three or
more hotspots, give moderate (when none is within 500 m); at least one
hotspot within 500 m gives high (when not sustained); two or more consecutive
days within 500 m give extreme; in particular four hotspots with the nearest
at 300 m from the boundary yield high. -/
theorem compute_fire_risk_ladder :
    (∀ n, compute_fire_risk [] n = .none) ∧
    (∀ (l : List ℕ) (n : ℕ), l ≠ [] → l.length ≤ 2 → (∀ d ∈ l, 2000 < d) →
      compute_fire_risk l n = .low) ∧
    (∀ (l : List ℕ) (n : ℕ), (∀ d ∈ l, 500 < d) →
      ((∃ d ∈ l, d ≤ 2000) ∨ 3 ≤ l.length) → compute_fire_risk l n = .moderate) ∧
    (∀ (l : List ℕ) (n : ℕ), (∃ d ∈ l, d ≤ 500) → n < 2 →
      compute_fire_risk l n = .high) ∧
    (∀ (l : List ℕ) (n : ℕ), (∃ d ∈ l, d ≤ 500) → 2 ≤ n →
      compute_fire_risk l n = .extreme) ∧
    compute_fire_risk [300, 1000, 2500, 3000] 1 = .high := by
  refine ⟨fun n => rfl, fun l n hne hlen hfar => ?_, fun l n hfar hmod => ?_,
    fun l n hnear hdays => ?_, fun l n hnear hdays => ?_, by decide⟩
  · have hE : l.isEmpty = false := by simpa [List.isEmpty_iff] using hne
    have h500 : (l.any fun dd => decide (dd ≤ 500)) = false := by
      simp only [List.any_eq_false, decide_eq_true_eq]
      intro d hd
      have := hfar d hd
      omega
    have h2000 : (l.any fun dd => decide (dd ≤ 2000)) = false := by
      simp only [List.any_eq_false, decide_eq_true_eq]
      intro d hd
      have := hfar d hd
      omega
    have hlen3 : decide (3 ≤ l.length) = false := by
      simp only [decide_eq_false_iff_not]
      omega
    simp [compute_fire_risk, hE, h500, h2000, hlen3]
  · have hne : l ≠ [] := by
      rcases hmod with ⟨d, hd, _⟩ | hlen
      · exact List.ne_nil_of_mem hd
      · intro h
        rw [h] at hlen
        simp at hlen
    have hE : l.isEmpty = false := by simpa [List.isEmpty_iff] using hne
    have h500 : (l.any fun dd => decide (dd ≤ 500)) = false := by
      simp only [List.any_eq_false, decide_eq_true_eq]
      intro d hd
      have := hfar d hd
      omega
    have hor : ((l.any fun dd => decide (dd ≤ 2000)) ||
        decide (3 ≤ l.length)) = true := by
      simp only [Bool.or_eq_true, List.any_eq_true, decide_eq_true_eq]
      exact hmod
    simp [compute_fire_risk, hE, h500, hor]
  · obtain ⟨d, hd, hle⟩ := hnear
    have hE : l.isEmpty = false := by
      simpa [List.isEmpty_iff] using List.ne_nil_of_mem hd
    have h500 : (l.any fun dd => decide (dd ≤ 500)) = true := by
      simp only [List.any_eq_true, decide_eq_true_eq]
      exact ⟨d, hd, hle⟩
    have hd2 : ¬ 2 ≤ n := by omega
    simp [compute_fire_risk, hE, h500, hd2]
  · obtain ⟨d, hd, hle⟩ := hnear
    have hE : l.isEmpty = false := by
      simpa [List.isEmpty_iff] using List.ne_nil_of_mem hd
    have h500 : (l.any fun dd => decide (dd ≤ 500)) = true := by
      simp only [List.any_eq_true, decide_eq_true_eq]
      exact ⟨d, hd, hle⟩
    simp [compute_fire_risk, hE, h500, hdays]

/-- Witness for C8: the ladder applied at concrete inputs, among them one
hotspot at 3 km (low), one at 1 km (moderate), one at 300 m (high), and a
two-day sustained detection at 300 m (extreme). -/
theorem compute_fire_risk_ladder_witness :
    compute_fire_risk [] 0 = .none ∧
    compute_fire_risk [3000] 0 = .low ∧
    compute_fire_risk [1000] 0 = .moderate ∧
    compute_fire_risk [300] 1 = .high ∧
    compute_fire_risk [300] 2 = .extreme ∧
    compute_fire_risk [300, 1000, 2500, 3000] 1 = .high :=
  ⟨compute_fire_risk_ladder.1 0,
   compute_fire_risk_ladder.2.1 [3000] 0 (by decide) (by decide) (by decide),
   compute_fire_risk_ladder.2.2.1 [1000] 0 (by decide) (Or.inl (by decide)),
   compute_fire_risk_ladder.2.2.2.1 [300] 1 (by decide) (by decide),
   compute_fire_risk_ladder.2.2.2.2.1 [300] 2 (by decide) (by decide),
   compute_fire_risk_ladder.2.2.2.2.2⟩

/-- Helper: the reaffirm update (touching only last_seen) does not change
whether a record matches any (field_id, kind, dedup_key) open-alert test. -/
theorem matchesOpen_reaffirm_update (fid : ℕ) (k : AlertKind) (d : String)
    (t : ℕ) (fid2 : ℕ) (k2 : AlertKind) (d2 : String) (a : AlertRec) :
    matchesOpen fid2 k2 d2
      (if matchesOpen fid k d a then { a with last_seen := t } else a) =
      matchesOpen fid2 k2 d2 a := by
  by_cases h : matchesOpen fid k d a = true
  · rw [if_pos h]
    rfl
  · rw [if_neg h]

/-- Helper: resolving an alert id never increases the number of open alerts
for any (field_id, kind, dedup_key). -/
theorem openCount_resolveAlert_le (s : AlertState) (aid t fid : ℕ)
    (k : AlertKind) (d : String) :
    openCount (resolveAlert s aid t) fid k d ≤ openCount s fid k d := by
  unfold openCount resolveAlert
  dsimp only
  rw [List.countP_map]
  apply List.countP_mono_left
  intro a _ h
  simp only [Function.comp_apply] at h
  by_cases hc : (a.id == aid && a.isOpen) = true
  · rw [if_pos hc] at h
    simp [matchesOpen, AlertRec.isOpen] at h
  · rwa [if_neg hc] at h

/-- Helper: the atomic create-or-reaffirm upsert keeps every open-alert count
at or below one. -/
theorem openCount_createOrReaffirm_le_one (s : AlertState) (fid2 : ℕ)
    (k2 : AlertKind) (d2 : String) (hInv : openCount s fid2 k2 d2 ≤ 1)
    (fid : ℕ) (k : AlertKind) (sev : Severity) (d : String) (now : ℕ) :
    openCount (createOrReaffirm s fid k sev d now) fid2 k2 d2 ≤ 1 := by
  unfold createOrReaffirm
  by_cases hAny : s.alerts.any (matchesOpen fid k d) = true
  · rw [if_pos hAny]
    unfold openCount at hInv ⊢
    dsimp only
    rw [List.countP_map]
    have he : List.countP ((matchesOpen fid2 k2 d2) ∘ (fun a =>
        if matchesOpen fid k d a then { a with last_seen := now } else a))
        s.alerts = List.countP (matchesOpen fid2 k2 d2) s.alerts :=
      List.countP_congr (fun a _ => by
        simp only [Function.comp_apply, matchesOpen_reaffirm_update])
    rw [he]
    exact hInv
  · rw [if_neg hAny]
    unfold openCount at hInv ⊢
    dsimp only
    rw [List.countP_cons]
    by_cases hm :
        matchesOpen fid2 k2 d2 ⟨s.nextId, fid, k, sev, now, now, none, d⟩ = true
    · have hfkd : (fid = fid2 ∧ k = k2) ∧ d = d2 := by
        simpa [matchesOpen, AlertRec.isOpen] using hm
      obtain ⟨⟨rfl, rfl⟩, rfl⟩ := hfkd
      have hAny2 : s.alerts.any (matchesOpen fid k d) = false := by
        simpa using hAny
      have h0 : s.alerts.countP (matchesOpen fid k d) = 0 := by
        rw [List.countP_eq_zero]
        exact List.any_eq_false.mp hAny2
      rw [h0, if_pos hm]
    · rw [if_neg hm]
      simpa using hInv

/-- Helper: every atomic alert-store transition preserves the store
invariant. -/
theorem alertInv_preserved {s s2 : AlertState} (hs : AlertInv s)
    (hstep : AlertStep s s2) : AlertInv s2 := by
  cases hstep with
  | trigger fid k sev d now =>
    constructor
    · intro fid2 k2 d2
      exact openCount_createOrReaffirm_le_one s fid2 k2 d2 (hs.1 fid2 k2 d2)
        fid k sev d now
    · intro a ha
      unfold createOrReaffirm at ha ⊢
      by_cases hAny : s.alerts.any (matchesOpen fid k d) = true
      · rw [if_pos hAny] at ha ⊢
        dsimp only at ha ⊢
        obtain ⟨c, hc, rfl⟩ := List.mem_map.mp ha
        by_cases hmc : matchesOpen fid k d c = true
        · rw [if_pos hmc]
          exact hs.2 c hc
        · rw [if_neg hmc]
          exact hs.2 c hc
      · rw [if_neg hAny] at ha ⊢
        dsimp only at ha ⊢
        rcases List.mem_cons.mp ha with rfl | ha2
        · exact Nat.lt_succ_self _
        · exact Nat.lt_succ_of_lt (hs.2 a ha2)
  | resolve aid now =>
    constructor
    · intro fid2 k2 d2
      exact le_trans (openCount_resolveAlert_le s aid now fid2 k2 d2)
        (hs.1 fid2 k2 d2)
    · intro a ha
      unfold resolveAlert at ha ⊢
      dsimp only at ha ⊢
      obtain ⟨c, hc, rfl⟩ := List.mem_map.mp ha
      by_cases hcc : (c.id == aid && c.isOpen) = true
      · rw [if_pos hcc]
        exact hs.2 c hc
      · rw [if_neg hcc]
        exact hs.2 c hc

/-- Helper: every reachable state of the alert store satisfies the
invariant. -/
theorem alertInv_reachable {s : AlertState} (h : AlertReachable s) :
    AlertInv s := by
  induction h with
  | init =>
    constructor
    · intro fid k d
      simp [openCount, emptyAlertState]
    · intro a ha
      simp [emptyAlertState] at ha
  | step _ hstep ih => exact alertInv_preserved ih hstep

/-- Helper: two distinct members both satisfying a predicate force a count of
at least two. -/
theorem two_le_countP {α : Type} {p : α → Bool} {l : List α} {a b : α}
    (ha : a ∈ l) (hb : b ∈ l) (hne : a ≠ b) (hpa : p a = true)
    (hpb : p b = true) : 2 ≤ l.countP p := by
  induction l with
  | nil => cases ha
  | cons x xs ih =>
    rcases List.mem_cons.mp ha with rfl | ha2
    · rcases List.mem_cons.mp hb with rfl | hb2
      · exact absurd rfl hne
      · have hx : 0 < xs.countP p := List.countP_pos_iff.mpr ⟨b, hb2, hpb⟩
        rw [List.countP_cons]
        simp only [hpa, if_pos]
        omega
    · rcases List.mem_cons.mp hb with rfl | hb2
      · have hx : 0 < xs.countP p := List.countP_pos_iff.mpr ⟨a, ha2, hpa⟩
        rw [List.countP_cons]
        simp only [hpb, if_pos]
        omega
      · have hx : 2 ≤ xs.countP p := ih ha2 hb2
        rw [List.countP_cons]
        omega

/-- C2. In every reachable state of the alert store — including every state
reached by interleaving the atomic transitions of concurrent batch runs — at
most one open (unresolved) alert exists per (field_id, kind, dedup_key). -/
theorem open_alert_dedup_at_most_one (s : AlertState) (h : AlertReachable s)
    (fid : ℕ) (k : AlertKind) (d : String) : openCount s fid k d ≤ 1 :=
  (alertInv_reachable h).1 fid k d

/-- Witness for C2 at a concrete reachable state: one trigger applied to the
empty store. -/
theorem open_alert_dedup_at_most_one_witness :
    AlertReachable (createOrReaffirm emptyAlertState 7 .fire .high "fc" 5) ∧
    openCount (createOrReaffirm emptyAlertState 7 .fire .high "fc" 5)
      7 .fire "fc" ≤ 1 :=
  have hr : AlertReachable (createOrReaffirm emptyAlertState 7 .fire .high "fc" 5) :=
    .step .init (.trigger emptyAlertState 7 .fire .high "fc" 5)
  ⟨hr, open_alert_dedup_at_most_one _ hr 7 .fire "fc"⟩

/-- C5. Round-trip on the alert lifecycle: in any reachable state, resolving
an open alert and then re-triggering the same breaching condition (same
field_id, kind and dedup_key) creates a new open alert record whose id
differs from the resolved alert's id but whose dedup_key is the same, and the
resolved alert record itself is present unmutated both right after resolution
and after the re-trigger. -/
theorem resolve_then_retrigger_fresh_alert (s : AlertState) (a : AlertRec)
    (sev : Severity) (t1 t2 : ℕ) (hreach : AlertReachable s)
    (hmem : a ∈ s.alerts) (hopen : a.isOpen = true) :
    ({ a with resolved_at := some t1 } ∈ (resolveAlert s a.id t1).alerts ∧
     { a with resolved_at := some t1 } ∈
       (createOrReaffirm (resolveAlert s a.id t1) a.field_id a.kind sev
         a.dedup_key t2).alerts) ∧
    ∃ b ∈ (createOrReaffirm (resolveAlert s a.id t1) a.field_id a.kind sev
        a.dedup_key t2).alerts,
      b.isOpen = true ∧ b.id ≠ a.id ∧ b.field_id = a.field_id ∧
      b.kind = a.kind ∧ b.dedup_key = a.dedup_key := by
  have hInv := alertInv_reachable hreach
  have hpa : matchesOpen a.field_id a.kind a.dedup_key a = true := by
    simp [matchesOpen, hopen]
  have hmem1 : { a with resolved_at := some t1 } ∈ (resolveAlert s a.id t1).alerts := by
    unfold resolveAlert
    dsimp only
    have he : (if a.id == a.id && a.isOpen then { a with resolved_at := some t1 }
        else a) = { a with resolved_at := some t1 } := by
      rw [if_pos (by simp [hopen])]
    exact he ▸ List.mem_map_of_mem _ hmem
  have hnone : (resolveAlert s a.id t1).alerts.any
      (matchesOpen a.field_id a.kind a.dedup_key) = false := by
    rw [List.any_eq_false]
    intro b hb
    unfold resolveAlert at hb
    dsimp only at hb
    obtain ⟨c, hc, rfl⟩ := List.mem_map.mp hb
    by_cases hcc : (c.id == a.id && c.isOpen) = true
    · rw [if_pos hcc]
      simp [matchesOpen, AlertRec.isOpen]
    · rw [if_neg hcc]
      intro hmc
      by_cases hca : c = a
      · subst hca
        exact hcc (by simp [hopen])
      · have h2 : 2 ≤ s.alerts.countP (matchesOpen a.field_id a.kind a.dedup_key) :=
          two_le_countP hc hmem hca hmc hpa
        have h1 := hInv.1 a.field_id a.kind a.dedup_key
        unfold openCount at h1
        omega
  have hcond : ¬ ((resolveAlert s a.id t1).alerts.any
      (matchesOpen a.field_id a.kind a.dedup_key) = true) := by
    simp [hnone]
  have halerts : (createOrReaffirm (resolveAlert s a.id t1) a.field_id a.kind sev
      a.dedup_key t2).alerts =
      ⟨(resolveAlert s a.id t1).nextId, a.field_id, a.kind, sev, t2, t2, none,
        a.dedup_key⟩ :: (resolveAlert s a.id t1).alerts := by
    unfold createOrReaffirm
    rw [if_neg hcond]
  refine ⟨⟨hmem1, ?_⟩, ?_⟩
  · rw [halerts]
    exact List.mem_cons_of_mem _ hmem1
  · refine ⟨⟨(resolveAlert s a.id t1).nextId, a.field_id, a.kind, sev, t2, t2,
      none, a.dedup_key⟩, ?_, rfl, ?_, rfl, rfl, rfl⟩
    · rw [halerts]
      exact List.mem_cons_self _ _
    · have hid : a.id < s.nextId := hInv.2 a hmem
      have hnx : (resolveAlert s a.id t1).nextId = s.nextId := rfl
      dsimp only
      omega

/-- Witness for C5 at a concrete reachable state holding one open fire
alert. -/
theorem resolve_then_retrigger_fresh_alert_witness :
    (AlertReachable (createOrReaffirm emptyAlertState 7 .fire .high "fc" 5) ∧
     (⟨0, 7, .fire, .high, 5, 5, none, "fc"⟩ : AlertRec) ∈
       (createOrReaffirm emptyAlertState 7 .fire .high "fc" 5).alerts ∧
     (⟨0, 7, .fire, .high, 5, 5, none, "fc"⟩ : AlertRec).isOpen = true) ∧
    ∃ b ∈ (createOrReaffirm
        (resolveAlert (createOrReaffirm emptyAlertState 7 .fire .high "fc" 5)
          (⟨0, 7, .fire, .high, 5, 5, none, "fc"⟩ : AlertRec).id 6)
        (⟨0, 7, .fire, .high, 5, 5, none, "fc"⟩ : AlertRec).field_id
        (⟨0, 7, .fire, .high, 5, 5, none, "fc"⟩ : AlertRec).kind .medium
        (⟨0, 7, .fire, .high, 5, 5, none, "fc"⟩ : AlertRec).dedup_key 9).alerts,
      b.isOpen = true ∧
      b.id ≠ (⟨0, 7, .fire, .high, 5, 5, none, "fc"⟩ : AlertRec).id ∧
      b.field_id = (⟨0, 7, .fire, .high, 5, 5, none, "fc"⟩ : AlertRec).field_id ∧
      b.kind = (⟨0, 7, .fire, .high, 5, 5, none, "fc"⟩ : AlertRec).kind ∧
      b.dedup_key = (⟨0, 7, .fire, .high, 5, 5, none, "fc"⟩ : AlertRec).dedup_key :=
  have hr : AlertReachable (createOrReaffirm emptyAlertState 7 .fire .high "fc" 5) :=
    .step .init (.trigger emptyAlertState 7 .fire .high "fc" 5)
  ⟨⟨hr, by decide, by decide⟩,
   (resolve_then_retrigger_fresh_alert
     (createOrReaffirm emptyAlertState 7 .fire .high "fc" 5)
     ⟨0, 7, .fire, .high, 5, 5, none, "fc"⟩ .medium 6 9 hr
     (by decide) (by decide)).2⟩

/-- Helper: arctan is non-negative on non-negative arguments. -/
theorem arctan_nonneg_of_nonneg {z : ℝ} (hz : 0 ≤ z) : 0 ≤ Real.arctan z := by
  have h := Real.arctan_strictMono.monotone hz
  rwa [Real.arctan_zero] at h

/-- Helper: atan2 of a non-negative ordinate is non-negative (the value lies
in [0, pi]). -/
theorem atan2_nonneg {y x : ℝ} (hy : 0 ≤ y) : 0 ≤ atan2 y x := by
  unfold atan2
  by_cases h1 : 0 < x
  · rw [if_pos h1]
    exact arctan_nonneg_of_nonneg (div_nonneg hy h1.le)
  · rw [if_neg h1]
    by_cases h2 : x < 0
    · rw [if_pos h2, if_pos hy]
      have hgt := Real.neg_pi_div_two_lt_arctan (y / x)
      have hpi := Real.pi_pos
      linarith
    · rw [if_neg h2]
      by_cases h4 : 0 < y
      · rw [if_pos h4]
        have hpi := Real.pi_pos
        linarith
      · rw [if_neg h4, if_neg (not_lt.mpr hy)]

/-- Helper: the Haversine intermediate value is symmetric in its two
coordinate pairs. -/
theorem haversineA_symm (lat1 lon1 lat2 lon2 : ℝ) :
    haversineA lat1 lon1 lat2 lon2 = haversineA lat2 lon2 lat1 lon1 := by
  unfold haversineA
  have e1 : (lat1 - lat2) * Real.pi / 180 / 2 =
      -((lat2 - lat1) * Real.pi / 180 / 2) := by ring
  have e2 : (lon1 - lon2) * Real.pi / 180 / 2 =
      -((lon2 - lon1) * Real.pi / 180 / 2) := by ring
  rw [e1, e2]
  simp only [Real.sin_neg]
  ring

/-- C10. Over exact real arithmetic, the Haversine distance of
coordinates.distance is symmetric in its two coordinate pairs, non-negative
for all inputs, and zero whenever the two points coincide. -/
theorem distance_symm_nonneg_self_zero :
    (∀ lat1 lon1 lat2 lon2 : ℝ,
      distance lat1 lon1 lat2 lon2 = distance lat2 lon2 lat1 lon1) ∧
    (∀ lat1 lon1 lat2 lon2 : ℝ, 0 ≤ distance lat1 lon1 lat2 lon2) ∧
    (∀ lat lon : ℝ, distance lat lon lat lon = 0) := by
  refine ⟨fun lat1 lon1 lat2 lon2 => ?_, fun lat1 lon1 lat2 lon2 => ?_,
    fun lat lon => ?_⟩
  · unfold distance
    rw [haversineA_symm]
  · unfold distance
    have h : 0 ≤ atan2 (Real.sqrt (haversineA lat1 lon1 lat2 lon2))
        (Real.sqrt (1 - haversineA lat1 lon1 lat2 lon2)) :=
      atan2_nonneg (Real.sqrt_nonneg _)
    linarith
  · have hA : haversineA lat lon lat lon = 0 := by
      unfold haversineA
      simp [sub_self]
    unfold distance
    rw [hA, Real.sqrt_zero, sub_zero, Real.sqrt_one]
    have h0 : atan2 0 1 = 0 := by
      unfold atan2
      rw [if_pos one_pos]
      simp [Real.arctan_zero]
    rw [h0]
    ring

end AgriSat
